import Mathlib

/-!
Shallow embedding of `src/main.py` of the x-followers-monitor repository.

The embedding covers the parts of the program the specification's claims
are about:

* the data model (follower records and snapshots),
* `compare_followers` (the diff engine, `main.py` lines 147-170),
* `save_progress` and the snapshot construction in `main`
  (`main.py` lines 249-278 and 436-448),
* the collector loop `scroll_followers_list` (`main.py` lines 313-365)
  together with `get_follower_data` (lines 113-137),
* the notifier helper `_format_users` inside `send_to_discord`
  (lines 186-195).

Python strings are modelled by `String`, Python `len` and slicing on
strings by explicit operations on the underlying character list, Python
sets by duplicate-free lists built with an insert-if-absent operation,
and the browser page by the sequence of extraction outcomes it yields
(`none` standing for a raised exception inside `page.evaluate`).
-/

namespace XFollowersMonitor

/-- Configurable constant `NO_NEW_CONTENT_LIMIT = 10` (`main.py` line 38). -/
def NO_NEW_CONTENT_LIMIT : Nat := 10

/-- Configurable constant `SCROLL_LIMIT = 500` (`main.py` line 39). -/
def SCROLL_LIMIT : Nat := 500

/-- Configurable constant `CHECKPOINT_INTERVAL = 15` (`main.py` line 40). -/
def CHECKPOINT_INTERVAL : Nat := 15

/-- `OUTPUT_FILE = "followers_data.json"` (`main.py` line 44). -/
def OUTPUT_FILE : String := "followers_data.json"

/-- `HISTORY_DIR = "followers_history"` (`main.py` line 45). -/
def HISTORY_DIR : String := "followers_history"

/-- `LATEST_FILE = os.path.join(HISTORY_DIR, "latest.json")` (`main.py` line 46). -/
def LATEST_FILE : String := HISTORY_DIR ++ "/latest.json"

/-- A follower record as raised by the in-page extraction script: a dict
`{name, username}` (`main.py` lines 120-130). -/
structure RawItem where
  name : String
  username : String
deriving DecidableEq, Repr

/-- A persisted follower record `{name, username, profile_url}`
(`main.py` lines 254-258 and 440-447). -/
structure FollowerRec where
  name : String
  username : String
  profile_url : String
deriving DecidableEq, Repr

/-- A snapshot dict `{username, timestamp, total_followers, followers}`
(`main.py` lines 260-265 and 436-448). -/
structure Snapshot where
  username : String
  timestamp : String
  total_followers : Nat
  followers : List FollowerRec
deriving DecidableEq, Repr

/-- The diff dict returned by `compare_followers` (`main.py` lines 165-170).
The spec calls `new_followers` the `added` sequence and `unfollowed` the
`removed` sequence. -/
structure Diff where
  unfollowed : List FollowerRec
  new_followers : List FollowerRec
  unfollowed_count : Nat
  new_followers_count : Nat
deriving DecidableEq, Repr

/-- The Python set comprehension `{f["username"] for f in followers}`
(`main.py` lines 152-153). -/
def usernameSet (l : List FollowerRec) : Finset String :=
  (l.map (fun f => f.username)).toFinset

/-- `compare_followers(previous_data, current_data)` (`main.py` lines 147-170).
`none` for `previous_data` models the Python `None`; the function then
returns `None`. Otherwise it forms the two username sets, their two set
differences, filters each snapshot's follower list by membership in the
corresponding difference, and reports the cardinalities of the differences
as the counts. -/
def compare_followers (previous_data : Option Snapshot) (current_data : Snapshot) :
    Option Diff :=
  match previous_data with
  | none => none
  | some prev =>
    let prev_usernames := usernameSet prev.followers
    let curr_usernames := usernameSet current_data.followers
    let unfollowed := prev_usernames \ curr_usernames
    let new_followers := curr_usernames \ prev_usernames
    let unfollowed_data := prev.followers.filter (fun f => f.username ∈ unfollowed)
    let new_follower_data :=
      current_data.followers.filter (fun f => f.username ∈ new_followers)
    some { unfollowed := unfollowed_data
           new_followers := new_follower_data
           unfollowed_count := unfollowed.card
           new_followers_count := new_followers.card }

/-! ### Snapshot store (`save_progress`, lines 249-278, and `main`, lines 436-448) -/

/-- Python `set.add` on a set modelled as a duplicate-free list: append the
element when it is not already present. -/
def pySetAdd (s : List (String × String)) (x : String × String) :
    List (String × String) :=
  if x ∈ s then s else s ++ [x]

/-- Insert one element into a lexicographically sorted list, keeping it
sorted: a step of the sort standing in for Python `sorted`. -/
def insSorted (le : String × String → String × String → Bool)
    (x : String × String) : List (String × String) → List (String × String)
  | [] => [x]
  | y :: ys => if le x y then x :: y :: ys else y :: insSorted le x ys

/-- Python string comparison: lexicographic on the code-point sequences,
a shorter string preceding its extensions. -/
def pyStrLtAux : List Char → List Char → Bool
  | [], [] => false
  | [], _ :: _ => true
  | _ :: _, [] => false
  | a :: as, b :: bs =>
    if a.toNat < b.toNat then true
    else if b.toNat < a.toNat then false
    else pyStrLtAux as bs

/-- Python `a < b` on strings. -/
def pyStrLt (a b : String) : Bool := pyStrLtAux a.data b.data

/-- Lexicographic comparison of `(name, username)` pairs, the order Python
`sorted` uses on tuples of strings. -/
def lexLe (a b : String × String) : Bool :=
  pyStrLt a.1 b.1 || (decide (a.1 = b.1) && (pyStrLt a.2 b.2 || decide (a.2 = b.2)))

/-- Python `sorted(follower_data)` on the set of `(name, username)` pairs
(`main.py` lines 255 and 446): an insertion sort by the lexicographic
order. -/
def pySorted (l : List (String × String)) : List (String × String) :=
  l.foldr (insSorted lexLe) []

/-- The `data` dict built by `save_progress` (`main.py` lines 254-265): the
accumulated `(name, username)` pairs are sorted, each pair becomes a record
with a derived `profile_url`, and `total_followers` is the size of the
accumulated set. The identical expression builds `current_data` in `main`
(lines 436-448). -/
def save_progress_data (follower_data : List (String × String))
    (username timestamp : String) : Snapshot :=
  { username := username
    timestamp := timestamp
    total_followers := follower_data.length
    followers := (pySorted follower_data).map
      (fun p => { name := p.1, username := p.2
                  profile_url := "https://x.com/" ++ p.2 }) }

/-- The `current_data` dict built in `main` (`main.py` lines 436-448),
field for field the same expression as in `save_progress`. -/
def main_current_data (follower_data : List (String × String))
    (username timestamp : String) : Snapshot :=
  { username := username
    timestamp := timestamp
    total_followers := follower_data.length
    followers := (pySorted follower_data).map
      (fun p => { name := p.1, username := p.2
                  profile_url := "https://x.com/" ++ p.2 }) }

/-- The history file name `followers_{timestamp}.json` inside `HISTORY_DIR`
(`main.py` lines 273-274). -/
def backup_file (backupTimestamp : String) : String :=
  HISTORY_DIR ++ "/followers_" ++ backupTimestamp ++ ".json"

/-- `save_progress(follower_data, username)` (`main.py` lines 249-278),
viewed through the file writes it performs: it builds `data` once and dumps
that same dict to `OUTPUT_FILE`, to `LATEST_FILE` and to the timestamped
history file, in that order. `timestamp` is the ISO timestamp taken at
line 262 and `backupTimestamp` the formatted one taken at line 273. -/
def save_progress (follower_data : List (String × String))
    (username timestamp backupTimestamp : String) : List (String × Snapshot) :=
  let data := save_progress_data follower_data username timestamp
  [(OUTPUT_FILE, data), (LATEST_FILE, data), (backup_file backupTimestamp, data)]

/-- Apply a list of file writes to a file store, later writes overwriting
earlier ones, as sequential `open(..., "w")`/`json.dump` calls do. -/
def applyWrites (fs : String → Option Snapshot)
    (writes : List (String × Snapshot)) : String → Option Snapshot :=
  writes.foldl (fun f w => fun n => if n = w.1 then some w.2 else f n) fs

/-- `load_previous_data()` (`main.py` lines 139-144): read the snapshot
stored at `LATEST_FILE`, `None` when absent. -/
def load_previous_data (fs : String → Option Snapshot) : Option Snapshot :=
  fs LATEST_FILE

/-! ### Collector loop (`scroll_followers_list`, lines 313-365) -/

/-- `get_follower_data(page)` (`main.py` lines 113-137): the in-page script
either returns a list of `{name, username}` dicts or raises; a raised
exception is caught and turned into the empty list. The page interaction is
modelled by its outcome, `none` standing for the exception. -/
def get_follower_data (outcome : Option (List RawItem)) : List RawItem :=
  match outcome with
  | none => []
  | some items => items

/-- The merge loop `for item in ...: follower_data.add((item["name"],
item["username"]))` (`main.py` lines 327-328 and 345-346). -/
def addItems (s : List (String × String)) (items : List RawItem) :
    List (String × String) :=
  items.foldl (fun acc it => pySetAdd acc (it.name, it.username)) s

/-- The mutable state of the collection loop (`main.py` lines 322-324). -/
structure LoopState where
  follower_data : List (String × String)
  no_new_content_count : Nat
  scroll_count : Nat
deriving DecidableEq, Repr

/-- One iteration of the while loop body (`main.py` lines 332-361):
increment `scroll_count`, extract whatever the page yields at that scroll
(an exception yielding the empty list), merge into the accumulated set,
and update the stall counter: incremented when the merge added zero new
unique pairs, reset to zero otherwise. `ext k` is the extraction outcome
at scroll number `k`. The checkpoint save at lines 357-361 only writes
files and leaves this state unchanged. -/
def loopStep (ext : Nat → Option (List RawItem)) (st : LoopState) : LoopState :=
  let scroll_count := st.scroll_count + 1
  let fd := addItems st.follower_data (get_follower_data (ext scroll_count))
  let followers_added := fd.length - st.follower_data.length
  { follower_data := fd
    no_new_content_count :=
      if followers_added = 0 then st.no_new_content_count + 1 else 0
    scroll_count := scroll_count }

/-- The while loop of `scroll_followers_list` (`main.py` line 332): run
`loopStep` while `no_new_content_count < NO_NEW_CONTENT_LIMIT and
scroll_count < SCROLL_LIMIT`. -/
def scrollLoop (ext : Nat → Option (List RawItem)) (st : LoopState) : LoopState :=
  if h : st.no_new_content_count < NO_NEW_CONTENT_LIMIT ∧
      st.scroll_count < SCROLL_LIMIT then
    scrollLoop ext (loopStep ext st)
  else st
termination_by SCROLL_LIMIT - st.scroll_count
decreasing_by
  simp only [loopStep]
  omega

/-- `scroll_followers_list(page, username)` (`main.py` lines 313-365): seed
the accumulated set from one initial extraction, run the while loop, and
return the accumulated set. `initExt` is the initial extraction outcome
(line 326) and `ext k` the outcome at scroll number `k`. -/
def scroll_followers_list (initExt : Option (List RawItem))
    (ext : Nat → Option (List RawItem)) : List (String × String) :=
  (scrollLoop ext
    { follower_data := addItems [] (get_follower_data initExt)
      no_new_content_count := 0
      scroll_count := 0 }).follower_data

/-! ### Notifier (`send_to_discord._format_users`, lines 186-195) -/

/-- `MAX_EMBED_DESC_LENGTH = 4000` (`main.py` line 186). -/
def MAX_EMBED_DESC_LENGTH : Nat := 4000

/-- Python `len` on a string: the number of code points. -/
def pyLen (s : String) : Nat := s.data.length

/-- Python slicing `s[:n]`: the first `n` code points. -/
def pySlice (s : String) (n : Nat) : String := ⟨s.data.take n⟩

/-- The f-string building one bullet line, a bullet then the name then the
at-prefixed username in parentheses (`main.py` line 190). -/
def formatLine (u : FollowerRec) : String :=
  "• " ++ u.name ++ " (@" ++ u.username ++ ")"

/-- The joined bullet list `"\n".join(lines)` (`main.py` lines 190-191). -/
def users_description (users : List FollowerRec) : String :=
  String.intercalate "\n" (users.map formatLine)

/-- `_format_users(users)` (`main.py` lines 188-195): the joined list, and
when its length exceeds `MAX_EMBED_DESC_LENGTH`, its first
`MAX_EMBED_DESC_LENGTH - 3` characters followed by `"..."`. -/
def format_users (users : List FollowerRec) : String :=
  let description := users_description users
  if pyLen description > MAX_EMBED_DESC_LENGTH then
    pySlice description (MAX_EMBED_DESC_LENGTH - 3) ++ "..."
  else description

/-! ### Theorems about the diff engine -/

/-- C8: if the previous snapshot is absent, `compare_followers` produces no
diff: the first-run case returns `None` (`main.py` lines 149-150). -/
theorem compare_followers_first_run (current : Snapshot) :
    compare_followers none current = none := rfl

/-- C6: diffing a snapshot against itself yields empty `unfollowed` and
`new_followers` lists and both counts zero. -/
theorem compare_followers_self (A : Snapshot) :
    compare_followers (some A) A =
      some { unfollowed := [], new_followers := []
             unfollowed_count := 0, new_followers_count := 0 } := by
  simp [compare_followers]

/-- C5: the `unfollowed` (removed) records of diffing `A` (previous)
against `B` (current) equal the `new_followers` (added) records of diffing
`B` (previous) against `A` (current): the key-based diff is symmetric
under swapping the two snapshots. -/
theorem compare_followers_swap (A B : Snapshot) :
    (compare_followers (some A) B).map Diff.unfollowed =
      (compare_followers (some B) A).map Diff.new_followers := rfl

/-- C7: a record whose username appears in both snapshots produces no
entry in either `unfollowed` or `new_followers`, whatever its `name`
fields are: only the `username` key is compared. -/
theorem compare_followers_key_based (A B : Snapshot) (d : Diff)
    (hd : compare_followers (some A) B = some d) (f : FollowerRec)
    (hA : f.username ∈ usernameSet A.followers)
    (hB : f.username ∈ usernameSet B.followers) :
    f ∉ d.unfollowed ∧ f ∉ d.new_followers := by
  simp only [compare_followers, Option.some.injEq] at hd
  subst hd
  constructor
  · intro hmem
    have h := (List.mem_filter.mp hmem).2
    simp only [decide_eq_true_eq, Finset.mem_sdiff] at h
    exact h.2 hB
  · intro hmem
    have h := (List.mem_filter.mp hmem).2
    simp only [decide_eq_true_eq, Finset.mem_sdiff] at h
    exact h.2 hA

/-- An example pair of snapshots sharing the username `bob` under two
different display names. -/
def snapshotOldBob : Snapshot :=
  { username := "acct", timestamp := "t1", total_followers := 1
    followers := [{ name := "Old", username := "bob"
                    profile_url := "https://x.com/bob" }] }

/-- The second example snapshot: same username `bob`, new display name. -/
def snapshotNewBob : Snapshot :=
  { username := "acct", timestamp := "t2", total_followers := 1
    followers := [{ name := "New", username := "bob"
                    profile_url := "https://x.com/bob" }] }

/-- Witness for C7 at concrete snapshots: the shared username `bob`
appears in neither part of the diff. -/
theorem compare_followers_key_based_witness :
    ({ name := "Old", username := "bob"
       profile_url := "https://x.com/bob" } : FollowerRec) ∉
      (Diff.mk [] [] 0 0).unfollowed ∧
    ({ name := "Old", username := "bob"
       profile_url := "https://x.com/bob" } : FollowerRec) ∉
      (Diff.mk [] [] 0 0).new_followers :=
  compare_followers_key_based snapshotOldBob snapshotNewBob (Diff.mk [] [] 0 0)
    (by decide) _ (by decide) (by decide)

/-- Filtering a follower list by a predicate on usernames keeps as many
records as filtering the projected username list does. -/
lemma length_filter_username (l : List FollowerRec) (S : Finset String) :
    (l.filter (fun f => f.username ∈ S)).length =
      ((l.map (fun f => f.username)).filter (fun u => u ∈ S)).length := by
  induction l with
  | nil => rfl
  | cons f t ih =>
    by_cases hp : f.username ∈ S <;>
      simp [List.filter_cons, hp, ih]

/-- On a duplicate-free list, the number of elements belonging to a subset
of the list equals that subset's cardinality. -/
lemma length_filter_mem (m : List String) (hm : m.Nodup) (S : Finset String)
    (hS : S ⊆ m.toFinset) :
    (m.filter (fun u => u ∈ S)).length = S.card := by
  have h1 : (m.filter (fun u => decide (u ∈ S))).Nodup := hm.filter _
  have h2 : (m.filter (fun u => decide (u ∈ S))).toFinset = S := by
    ext u
    simp only [List.mem_toFinset, List.mem_filter, decide_eq_true_eq]
    exact ⟨fun h => h.2, fun hu => ⟨List.mem_toFinset.mp (hS hu), hu⟩⟩
  rw [← List.toFinset_card_of_nodup h1, h2]

/-- C1: on snapshots with duplicate-free usernames, the diff's counts
equal the lengths of the corresponding record lists, and no username
appears in both `unfollowed` and `new_followers`. -/
theorem compare_followers_counts (A B : Snapshot)
    (hA : (A.followers.map (fun f => f.username)).Nodup)
    (hB : (B.followers.map (fun f => f.username)).Nodup)
    (d : Diff) (hd : compare_followers (some A) B = some d) :
    d.unfollowed_count = d.unfollowed.length ∧
    d.new_followers_count = d.new_followers.length ∧
    ∀ u ∈ d.unfollowed.map (fun f => f.username),
      u ∉ d.new_followers.map (fun f => f.username) := by
  simp only [compare_followers, Option.some.injEq] at hd
  subst hd
  dsimp only
  refine ⟨?_, ?_, ?_⟩
  · rw [length_filter_username,
      length_filter_mem _ hA _ (Finset.sdiff_subset.trans ?_)]
    simp [usernameSet]
  · rw [length_filter_username,
      length_filter_mem _ hB _ (Finset.sdiff_subset.trans ?_)]
    simp [usernameSet]
  · intro u hu hv
    simp only [List.mem_map, List.mem_filter, decide_eq_true_eq,
      Finset.mem_sdiff] at hu hv
    obtain ⟨f, ⟨-, hf1, hf2⟩, rfl⟩ := hu
    obtain ⟨g, ⟨-, hg1, hg2⟩, hg⟩ := hv
    exact hf2 (hg ▸ hg1)

/-- A previous snapshot holding only the follower `alice`. -/
def snapshotAlice : Snapshot :=
  { username := "acct", timestamp := "t1", total_followers := 1
    followers := [{ name := "Alice", username := "alice"
                    profile_url := "https://x.com/alice" }] }

/-- A current snapshot holding only the follower `carol`. -/
def snapshotCarol : Snapshot :=
  { username := "acct", timestamp := "t2", total_followers := 1
    followers := [{ name := "Carol", username := "carol"
                    profile_url := "https://x.com/carol" }] }

/-- Witness for C1 at concrete snapshots `{alice}` versus `{carol}`:
counts one and one, lengths one and one, usernames disjoint. -/
theorem compare_followers_counts_witness :
    (Diff.mk [{ name := "Alice", username := "alice"
                profile_url := "https://x.com/alice" }]
        [{ name := "Carol", username := "carol"
           profile_url := "https://x.com/carol" }] 1 1).unfollowed_count =
      (Diff.mk [{ name := "Alice", username := "alice"
                  profile_url := "https://x.com/alice" }]
        [{ name := "Carol", username := "carol"
           profile_url := "https://x.com/carol" }] 1 1).unfollowed.length ∧
    (Diff.mk [{ name := "Alice", username := "alice"
                profile_url := "https://x.com/alice" }]
        [{ name := "Carol", username := "carol"
           profile_url := "https://x.com/carol" }] 1 1).new_followers_count =
      (Diff.mk [{ name := "Alice", username := "alice"
                  profile_url := "https://x.com/alice" }]
        [{ name := "Carol", username := "carol"
           profile_url := "https://x.com/carol" }] 1 1).new_followers.length ∧
    ∀ u ∈ (Diff.mk [{ name := "Alice", username := "alice"
                      profile_url := "https://x.com/alice" }]
        [{ name := "Carol", username := "carol"
           profile_url := "https://x.com/carol" }] 1 1).unfollowed.map
          (fun f => f.username),
      u ∉ (Diff.mk [{ name := "Alice", username := "alice"
                      profile_url := "https://x.com/alice" }]
        [{ name := "Carol", username := "carol"
           profile_url := "https://x.com/carol" }] 1 1).new_followers.map
          (fun f => f.username) :=
  compare_followers_counts snapshotAlice snapshotCarol (by decide) (by decide)
    _ (by decide)

/-! ### Theorems about the snapshot store -/

/-- Inserting into a sorted list is a permutation of consing. -/
lemma insSorted_perm (le : String × String → String × String → Bool)
    (x : String × String) (l : List (String × String)) :
    List.Perm (insSorted le x l) (x :: l) := by
  induction l with
  | nil => simp [insSorted]
  | cons y ys ih =>
    by_cases hle : le x y
    · simp [insSorted, hle]
    · simp only [insSorted, hle, Bool.false_eq_true, if_false]
      exact (ih.cons y).trans (List.Perm.swap x y ys)

/-- The modelled Python `sorted` permutes its input. -/
lemma pySorted_perm (l : List (String × String)) : List.Perm (pySorted l) l := by
  induction l with
  | nil => rfl
  | cons x t ih => exact (insSorted_perm lexLe x (pySorted t)).trans (ih.cons x)

/-- Building a follower record from a `(name, username)` pair is
injective: both fields are kept. -/
lemma followerOfPair_injective :
    Function.Injective (fun p : String × String =>
      ({ name := p.1, username := p.2
         profile_url := "https://x.com/" ++ p.2 } : FollowerRec)) := by
  intro a b hab
  simp only [FollowerRec.mk.injEq] at hab
  exact Prod.ext hab.1 hab.2.1

/-- C2 counterexample: the accumulated set `{("A", "bob"), ("B", "bob")}`
— reachable when the same username is extracted under two display names —
yields a snapshot whose followers repeat the username `bob`. -/
theorem save_progress_duplicate_username_cex :
    ¬ (((save_progress_data [("A", "bob"), ("B", "bob")] "acct" "t").followers.map
        (fun f => f.username)).Nodup) := by
  intro h
  have hperm : List.Perm
      ((save_progress_data [("A", "bob"), ("B", "bob")] "acct" "t").followers.map
        (fun f => f.username))
      ([("A", "bob"), ("B", "bob")].map (fun p : String × String => p.2)) := by
    simp only [save_progress_data, List.map_map]
    exact (pySorted_perm _).map _
  have h2 := hperm.nodup_iff.mp h
  simp at h2

/-- C2 amended: for every duplicate-free accumulated set of
`(name, username)` pairs, the snapshot built by `save_progress` (and the
identically built `current_data` in `main`) has `total_followers` equal to
the number of followers and no duplicate follower records; usernames alone
may still repeat. -/
theorem save_progress_data_invariants (fd : List (String × String))
    (hnd : fd.Nodup) (u t : String) :
    (save_progress_data fd u t).total_followers =
      (save_progress_data fd u t).followers.length ∧
    (save_progress_data fd u t).followers.Nodup ∧
    main_current_data fd u t = save_progress_data fd u t := by
  refine ⟨?_, ?_, rfl⟩
  · simp [save_progress_data, (pySorted_perm fd).length_eq]
  · exact List.Nodup.map followerOfPair_injective
      ((pySorted_perm fd).nodup_iff.mpr hnd)

/-- Witness for the amended C2 at the concrete set `{("A", "a")}`. -/
theorem save_progress_data_invariants_witness :
    (save_progress_data [("A", "a")] "acct" "t").total_followers =
      (save_progress_data [("A", "a")] "acct" "t").followers.length ∧
    (save_progress_data [("A", "a")] "acct" "t").followers.Nodup ∧
    main_current_data [("A", "a")] "acct" "t" =
      save_progress_data [("A", "a")] "acct" "t" :=
  save_progress_data_invariants [("A", "a")] (by decide) "acct" "t"

/-- C10: `save_progress` writes the one snapshot it builds, unchanged, to
the current-output file, the latest pointer and the timestamped history
file, and the baseline the next run loads from `LATEST_FILE` equals the
published output of this run. -/
theorem save_progress_writes_consistent (fd : List (String × String))
    (u t bts : String) (fs : String → Option Snapshot) :
    (save_progress fd u t bts).map Prod.snd =
      [save_progress_data fd u t, save_progress_data fd u t,
        save_progress_data fd u t] ∧
    (save_progress fd u t bts).map Prod.fst =
      [OUTPUT_FILE, LATEST_FILE, backup_file bts] ∧
    load_previous_data (applyWrites fs (save_progress fd u t bts)) =
      some (save_progress_data fd u t) ∧
    applyWrites fs (save_progress fd u t bts) OUTPUT_FILE =
      some (save_progress_data fd u t) := by
  refine ⟨rfl, rfl, ?_, ?_⟩
  · simp only [load_previous_data, applyWrites, save_progress, List.foldl]
    split <;> simp
  · simp only [applyWrites, save_progress, List.foldl]
    split
    · rfl
    · split <;> simp

/-! ### Theorems about the collector loop -/

/-- One-step unfolding of the while loop. -/
lemma scrollLoop_eq (ext : Nat → Option (List RawItem)) (st : LoopState) :
    scrollLoop ext st =
      if st.no_new_content_count < NO_NEW_CONTENT_LIMIT ∧
          st.scroll_count < SCROLL_LIMIT then
        scrollLoop ext (loopStep ext st)
      else st := by
  rw [scrollLoop]
  split <;> rfl

/-- Each step increments the scroll counter by one. -/
lemma loopStep_scroll_count (ext : Nat → Option (List RawItem))
    (st : LoopState) : (loopStep ext st).scroll_count = st.scroll_count + 1 := rfl

/-- After the while loop stops, its guard is false: the stall counter has
reached `NO_NEW_CONTENT_LIMIT` or the scroll counter has reached
`SCROLL_LIMIT`. -/
lemma scrollLoop_stops (ext : Nat → Option (List RawItem)) :
    ∀ (fuel : Nat) (st : LoopState), SCROLL_LIMIT - st.scroll_count ≤ fuel →
      NO_NEW_CONTENT_LIMIT ≤ (scrollLoop ext st).no_new_content_count ∨
        SCROLL_LIMIT ≤ (scrollLoop ext st).scroll_count := by
  intro fuel
  induction fuel with
  | zero =>
    intro st hf
    rw [scrollLoop_eq, if_neg (by omega)]
    omega
  | succ n ih =>
    intro st hf
    rw [scrollLoop_eq]
    by_cases hc : st.no_new_content_count < NO_NEW_CONTENT_LIMIT ∧
        st.scroll_count < SCROLL_LIMIT
    · rw [if_pos hc]
      exact ih (loopStep ext st) (by rw [loopStep_scroll_count]; omega)
    · rw [if_neg hc]
      omega

/-- C3: the collector loop stops exactly when the stall counter reaches
`NO_NEW_CONTENT_LIMIT` or the scroll counter reaches `SCROLL_LIMIT`; a
state already past either bound is returned as is, with no further
extraction, and `scroll_followers_list` returns the accumulated set of the
stopped state. -/
theorem scrollLoop_termination (initExt : Option (List RawItem))
    (ext : Nat → Option (List RawItem)) (st : LoopState) :
    (NO_NEW_CONTENT_LIMIT ≤ (scrollLoop ext st).no_new_content_count ∨
      SCROLL_LIMIT ≤ (scrollLoop ext st).scroll_count) ∧
    ((NO_NEW_CONTENT_LIMIT ≤ st.no_new_content_count ∨
        SCROLL_LIMIT ≤ st.scroll_count) → scrollLoop ext st = st) ∧
    scroll_followers_list initExt ext =
      (scrollLoop ext
        { follower_data := addItems [] (get_follower_data initExt)
          no_new_content_count := 0
          scroll_count := 0 }).follower_data := by
  refine ⟨scrollLoop_stops ext (SCROLL_LIMIT - st.scroll_count) st le_rfl,
    fun h => ?_, rfl⟩
  rw [scrollLoop_eq, if_neg (by omega)]

/-- Witness for C3: from a state whose stall counter already equals the
limit, the loop stops at once and its guard is indeed false. -/
theorem scrollLoop_termination_witness :
    (NO_NEW_CONTENT_LIMIT ≤
        (scrollLoop (fun _ => none)
          { follower_data := [], no_new_content_count := 10
            scroll_count := 0 }).no_new_content_count ∨
      SCROLL_LIMIT ≤
        (scrollLoop (fun _ => none)
          { follower_data := [], no_new_content_count := 10
            scroll_count := 0 }).scroll_count) ∧
    scrollLoop (fun _ => none)
        { follower_data := [], no_new_content_count := 10, scroll_count := 0 } =
      { follower_data := [], no_new_content_count := 10, scroll_count := 0 } :=
  ⟨(scrollLoop_termination none (fun _ => none)
      { follower_data := [], no_new_content_count := 10, scroll_count := 0 }).1,
   (scrollLoop_termination none (fun _ => none)
      { follower_data := [], no_new_content_count := 10, scroll_count := 0 }).2.1
      (by decide)⟩

/-- C4 counterexample: at a concrete state, an iteration whose extraction
raises (outcome `none`) adds no records, yet the stall counter is
incremented from `0` to `1` — error-caused empty iterations do count
toward stall termination, contrary to the claim. -/
theorem stall_counter_error_cex :
    (loopStep (fun _ => none)
        { follower_data := [("A", "a")], no_new_content_count := 0
          scroll_count := 0 }).follower_data = [("A", "a")] ∧
    (loopStep (fun _ => none)
        { follower_data := [("A", "a")], no_new_content_count := 0
          scroll_count := 0 }).no_new_content_count = 1 :=
  ⟨rfl, rfl⟩

/-- C4 amended: an extraction error is caught and treated as zero records
for the iteration (the accumulated set is unchanged), the loop continues
rather than aborting, and such an error-caused empty iteration increments
the stall-termination counter. -/
theorem error_iteration_behavior (ext : Nat → Option (List RawItem))
    (st : LoopState) (herr : ext (st.scroll_count + 1) = none) :
    get_follower_data (ext (st.scroll_count + 1)) = [] ∧
    (loopStep ext st).follower_data = st.follower_data ∧
    (loopStep ext st).scroll_count = st.scroll_count + 1 ∧
    (loopStep ext st).no_new_content_count = st.no_new_content_count + 1 ∧
    (st.no_new_content_count < NO_NEW_CONTENT_LIMIT →
      st.scroll_count < SCROLL_LIMIT →
      scrollLoop ext st = scrollLoop ext (loopStep ext st)) := by
  refine ⟨by rw [herr]; rfl, ?_, rfl, ?_, fun h1 h2 => ?_⟩
  · simp [loopStep, herr, get_follower_data, addItems]
  · simp [loopStep, herr, get_follower_data, addItems]
  · rw [scrollLoop_eq, if_pos ⟨h1, h2⟩]

/-- Witness for the amended C4 at a concrete state and an extraction that
always raises. -/
theorem error_iteration_behavior_witness :
    get_follower_data ((fun _ => (none : Option (List RawItem))) 4) = [] ∧
    (loopStep (fun _ => none)
        { follower_data := [("B", "b")], no_new_content_count := 2
          scroll_count := 3 }).follower_data = [("B", "b")] ∧
    (loopStep (fun _ => none)
        { follower_data := [("B", "b")], no_new_content_count := 2
          scroll_count := 3 }).scroll_count = 4 ∧
    (loopStep (fun _ => none)
        { follower_data := [("B", "b")], no_new_content_count := 2
          scroll_count := 3 }).no_new_content_count = 3 ∧
    scrollLoop (fun _ => none)
        { follower_data := [("B", "b")], no_new_content_count := 2
          scroll_count := 3 } =
      scrollLoop (fun _ => none)
        (loopStep (fun _ => none)
          { follower_data := [("B", "b")], no_new_content_count := 2
            scroll_count := 3 }) := by
  obtain ⟨h1, h2, h3, h4, h5⟩ := error_iteration_behavior (fun _ => none)
    { follower_data := [("B", "b")], no_new_content_count := 2
      scroll_count := 3 } rfl
  exact ⟨h1, h2, h3, h4, h5 (by decide) (by decide)⟩

/-! ### Theorems about the notifier -/

/-- Python `len` distributes over string concatenation. -/
lemma pyLen_append (a b : String) : pyLen (a ++ b) = pyLen a + pyLen b := by
  simp [pyLen, String.data_append]

/-- Python `len` of a slice `s[:n]`. -/
lemma pyLen_pySlice (s : String) (n : Nat) :
    pyLen (pySlice s n) = min n (pyLen s) := by
  simp [pyLen, pySlice]

/-- C9: a per-category report body longer than `MAX_EMBED_DESC_LENGTH`
characters is cut to `MAX_EMBED_DESC_LENGTH - 3` characters plus the
ellipsis marker, so the result never exceeds `MAX_EMBED_DESC_LENGTH`;
a body within the limit is returned unchanged. -/
theorem format_users_bounded (users : List FollowerRec) :
    pyLen (format_users users) ≤ MAX_EMBED_DESC_LENGTH ∧
    (pyLen (users_description users) ≤ MAX_EMBED_DESC_LENGTH →
      format_users users = users_description users) ∧
    (MAX_EMBED_DESC_LENGTH < pyLen (users_description users) →
      format_users users =
        pySlice (users_description users) (MAX_EMBED_DESC_LENGTH - 3) ++ "...") := by
  unfold format_users
  by_cases h : pyLen (users_description users) > MAX_EMBED_DESC_LENGTH
  · rw [if_pos h]
    refine ⟨?_, fun hle => absurd h (by omega), fun _ => rfl⟩
    rw [pyLen_append, pyLen_pySlice]
    have h3 : pyLen ("..." : String) = 3 := by decide
    rw [h3]
    unfold MAX_EMBED_DESC_LENGTH at h ⊢
    omega
  · rw [if_neg h]
    exact ⟨by omega, fun _ => rfl, fun hgt => absurd hgt h⟩

/-- Witness for C9 at the empty user list: the body is empty, within the
limit, and returned unchanged. -/
theorem format_users_bounded_witness :
    pyLen (format_users []) ≤ MAX_EMBED_DESC_LENGTH ∧
    format_users [] = users_description [] :=
  ⟨(format_users_bounded []).1, (format_users_bounded []).2.1 (by decide)⟩

end XFollowersMonitor
